import Mathlib

/-!
# AwakePro gateway — verification of the model-routing / automation-detection core

Shallow embedding of the chat gateway of the AwakePro repository:

* `detectAutomations` — the keyword-triggered automation detector
  (`server/routes.ts`, duplicated verbatim in the Vercel variant servers);
* `openRouterChat` — `OpenRouterService.chat` (canonical router service);
* `safeChat` — `SafeOpenRouterService.chat` (the "bulletproof" Vercel variant);
* `simpleChat` — `SimpleOpenRouterService.chat` (`server/index.ts` variant);
* `handleChatRoutes` / `handleChatSafe` — the `POST /api/chat` handlers of the
  canonical server and of the variant server;
* `healthRoutes` / `healthIndex` — the `GET /api/health` handlers.

Ambient effects are passed explicitly: the upstream fetch outcome is a
`FetchResult` argument, `Math.random()`'s draw is a natural-number index,
`randomUUID()` / `Date.now()` are arguments, and environment variables are
`Bool`/`Option String` arguments.  JavaScript's `x || d` on strings (empty
string and `undefined` are falsy) is `jsOrElse`.
-/

namespace AwakePro

/-- JavaScript `x || d` for an optional string: `undefined` and `""` are falsy. -/
def jsOrElse (x : Option String) (d : String) : String :=
  match x with
  | none => d
  | some s => if s = "" then d else s

/-- `pat.isPrefixOf s` on character lists, mirroring JS `String.startsWith`. -/
def charPrefix : List Char → List Char → Bool
  | [], _ => true
  | _ :: _, [] => false
  | p :: ps, c :: cs => p == c && charPrefix ps cs

/-- Substring occurrence on character lists (JS `String.prototype.includes`). -/
def charInfix : List Char → List Char → Bool
  | pat, [] => pat.isEmpty
  | pat, c :: rest => charPrefix pat (c :: rest) || charInfix pat rest

/-- JS `s.includes(pat)`: `pat` occurs contiguously in `s`. -/
def includes (s pat : String) : Bool :=
  charInfix pat.toList s.toList

/-- JS `message.toLowerCase()`, character-wise. -/
def toLowerStr (s : String) : String :=
  String.mk (s.toList.map Char.toLower)

/-- `shared/types.ts` `AutomationAction`. -/
structure AutomationAction where
  type : String
  message : String
  icon : String
deriving DecidableEq, Repr

/-- The action pushed when the lowercased message contains `"email"`. -/
def emailAction : AutomationAction :=
  { type := "email", message := "Action simulated: Email sent!", icon := "📧" }

/-- The action pushed when the lowercased message contains `"task"`. -/
def taskAction : AutomationAction :=
  { type := "task", message := "Action simulated: Jira task created!", icon := "✅" }

/-- The action pushed when the lowercased message contains `"slack"`. -/
def slackAction : AutomationAction :=
  { type := "slack", message := "Action simulated: Slack message posted!", icon := "💬" }

/-- `detectAutomations` from `server/routes.ts` (the same code appears inline in
the variant servers): lowercase the message, then push one fixed action per
keyword found, in the fixed order email, task, slack. -/
def detectAutomations (message : String) : List AutomationAction :=
  let lowerMessage := toLowerStr message
  (if includes lowerMessage "email" then [emailAction] else []) ++
  (if includes lowerMessage "task" then [taskAction] else []) ++
  (if includes lowerMessage "slack" then [slackAction] else [])

/-- The fixed keyword list of the automation detector, in detection order. -/
def automationKeywords : List String := ["email", "task", "slack"]

/-- The fixed action emitted for each keyword. -/
def keywordAction (k : String) : AutomationAction :=
  if k = "email" then emailAction
  else if k = "task" then taskAction
  else slackAction

/-- Modelled from the spec (§4.2): one action per keyword present in the
lowercased message, in keyword-list order.  Used as the specification side of
the refinement proof for the detector. -/
def detectAutomationsSpec (message : String) : List AutomationAction :=
  (automationKeywords.filter (fun k => includes (toLowerStr message) k)).map keywordAction

theorem detect_eq_spec (msg : String) :
    detectAutomations msg = detectAutomationsSpec msg := by
  unfold detectAutomations detectAutomationsSpec automationKeywords
  cases h1 : includes (toLowerStr msg) "email" <;>
    cases h2 : includes (toLowerStr msg) "task" <;>
      cases h3 : includes (toLowerStr msg) "slack" <;>
        simp [List.filter, h1, h2, h3, keywordAction]

/-! ## Upstream call and router services -/

/-- Outcome of the one upstream `fetch` of a chat request, as observed by the
router code: a 2xx reply carrying `data.choices[0]?.message?.content`
(`none` when the chain is absent), a non-2xx status with the error body text,
or a thrown network/parse exception with its message. -/
inductive FetchResult where
  | ok (content : Option String)
  | httpError (status : Nat) (body : String)
  | exn (msg : String)
deriving DecidableEq, Repr

/-- The `{ content, modelUsed }` record every `chat` implementation resolves to. -/
structure ChatResult where
  content : String
  modelUsed : String
deriving DecidableEq, Repr

/-- `MODEL_MAPPINGS` from `services/openrouter.ts`. -/
def MODEL_MAPPINGS : List (String × String) :=
  [("gpt", "openai/gpt-4o"),
   ("claude", "anthropic/claude-3.5-sonnet"),
   ("llama", "meta-llama/llama-3.1-70b-instruct")]

/-- `AVAILABLE_MODELS = Object.keys(MODEL_MAPPINGS)`. -/
def AVAILABLE_MODELS : List String := MODEL_MAPPINGS.map Prod.fst

/-- `MODEL_MAPPINGS[m]`: the provider-qualified string for a logical model,
`none` when the table has no entry. -/
def lookupMapping (m : String) : Option String :=
  (MODEL_MAPPINGS.find? (fun p => p.fst == m)).map Prod.snd

/-- The model-resolution step of `OpenRouterService.chat`: `"auto"` resolves
through `AVAILABLE_MODELS[randomIndex]` where `randomIndex` embeds
`Math.floor(Math.random() * AVAILABLE_MODELS.length)` (always `< 3`); any
other string is used directly. -/
def resolveModel (model : String) (randomIndex : Nat) : String :=
  if model = "auto" then AVAILABLE_MODELS.getD randomIndex "" else model

/-- `OpenRouterService.chat` from `services/openrouter.ts`.  The whole body sits
in a `try` whose `catch` rethrows `Failed to get AI response: <cause>`; a
missing mapping entry throws `Unsupported model: <m>` inside the `try`; a
non-ok response throws `OpenRouter API error: <status> - <body>`; a 2xx reply
yields `choices[0]?.message?.content || 'No response generated'` with
`modelUsed` the resolved logical model. -/
def openRouterChat (message model : String) (randomIndex : Nat)
    (fr : FetchResult) : Except String ChatResult :=
  match lookupMapping (resolveModel model randomIndex) with
  | none =>
      .error ("Failed to get AI response: "
        ++ ("Unsupported model: " ++ resolveModel model randomIndex))
  | some _openRouterModel =>
      match fr with
      | .ok content =>
          .ok { content := jsOrElse content "No response generated"
                modelUsed := resolveModel model randomIndex }
      | .httpError status body =>
          .error ("Failed to get AI response: "
            ++ ("OpenRouter API error: " ++ toString status ++ " - " ++ body))
      | .exn msg =>
          .error ("Failed to get AI response: " ++ msg)

/-- `modelMapping` of `SafeOpenRouterService.chat` (the Vercel variant): note
the extra `'auto' → 'openai/gpt-4o'` entry. -/
def safeModelMapping : List (String × String) :=
  [("gpt", "openai/gpt-4o"),
   ("claude", "anthropic/claude-3.5-sonnet"),
   ("llama", "meta-llama/llama-3.1-70b-instruct"),
   ("auto", "openai/gpt-4o")]

/-- `modelMapping[m]` in the Safe variant. -/
def lookupSafe (m : String) : Option String :=
  (safeModelMapping.find? (fun p => p.fst == m)).map Prod.snd

/-- `modelMapping[model] || modelMapping['auto']` of `SafeOpenRouterService.chat`
(and, identically, of `SimpleOpenRouterService.chat` in `server/index.ts`):
an unknown logical model silently falls back to the `'auto'` entry. -/
def safeResolveProvider (model : String) : String :=
  jsOrElse (lookupSafe model) ((lookupSafe "auto").getD "")

/-- `SafeOpenRouterService.chat`: never throws.  `isAvailable` embeds the
construction-time presence of `OPENROUTER_API_KEY`; `fetchAvailable` embeds
`typeof fetch !== 'undefined'`.  Every failure is converted into a record with
`modelUsed = "fallback"`; a 2xx reply returns `modelUsed = model` — the
*requested* string, unresolved. -/
def safeChat (isAvailable fetchAvailable : Bool) (message model : String)
    (fr : FetchResult) : ChatResult :=
  if !isAvailable then
    { content := "AI service is currently unavailable. Please check your configuration."
      modelUsed := "fallback" }
  else
    let _openRouterModel := safeResolveProvider model
    if !fetchAvailable then
      { content := "Fetch API not available in this environment.", modelUsed := "fallback" }
    else
      match fr with
      | .ok content =>
          { content := jsOrElse content "No response generated", modelUsed := model }
      | .httpError status _body =>
          { content := "AI service error: API error: " ++ toString status
              ++ ". Using fallback response."
            modelUsed := "fallback" }
      | .exn msg =>
          { content := "AI service error: " ++ msg ++ ". Using fallback response."
            modelUsed := "fallback" }

/-- `SimpleOpenRouterService.chat` from `server/index.ts`: like the Safe
variant but with no fetch-availability check, `modelUsed = "error"` when the
key is missing, and `modelUsed = model` even on a caught upstream error. -/
def simpleChat (apiKeyPresent : Bool) (message model : String)
    (fr : FetchResult) : ChatResult :=
  if !apiKeyPresent then
    { content := "API key not configured. Please check your environment variables."
      modelUsed := "error" }
  else
    let _openRouterModel := safeResolveProvider model
    match fr with
    | .ok content =>
        { content := jsOrElse content "No response generated", modelUsed := model }
    | .httpError status _body =>
        { content := "Error: API error: " ++ toString status, modelUsed := model }
    | .exn msg =>
        { content := "Error: " ++ msg, modelUsed := model }

/-! ## Degraded stand-in registration (`registerRoutes`) -/

/-- The message of the error thrown by the `OpenRouterService` constructor when
`OPENROUTER_API_KEY` is absent. -/
def constructorKeyError : String :=
  "OpenRouter API key is required. Please check your environment variables."

/-- The router instance held by `registerRoutes`: the operational service, or
the degraded stand-in object built in the `catch` branch. -/
inductive RouterInstance where
  | operational
  | degraded (reason : String)
deriving DecidableEq, Repr

/-- `registerRoutes`' construction step: `new OpenRouterService()` throws
exactly when the key is absent, and the `catch` branch substitutes the
fallback service closed over the construction error. -/
def makeRouter (apiKeyPresent : Bool) : RouterInstance :=
  if apiKeyPresent then .operational else .degraded constructorKeyError

/-- The chat operation exposed by whichever instance `registerRoutes` holds:
the operational service forwards to `OpenRouterService.chat`; the degraded
stand-in resolves every call with a fixed unavailability content and the
sentinel `modelUsed = "fallback"`. -/
def routerChat (r : RouterInstance) (message model : String) (randomIndex : Nat)
    (fr : FetchResult) : Except String ChatResult :=
  match r with
  | .operational => openRouterChat message model randomIndex fr
  | .degraded reason =>
      .ok { content := "Service temporarily unavailable. Please check your API configuration. Error: "
              ++ reason
            modelUsed := "fallback" }

/-! ## Request handlers (`POST /api/chat`) -/

/-- `shared/types.ts` `ChatResponse`: the envelope returned on success. -/
structure ChatResponse where
  id : String
  content : String
  model : String
  automations : List AutomationAction
deriving DecidableEq, Repr

/-- Outcome of one handler run: a 400 validation rejection, a 200 JSON
envelope, or a 500 error body. -/
inductive HandlerResult where
  | clientError (msg : String)
  | ok (resp : ChatResponse)
  | serverError (msg : String)
deriving DecidableEq, Repr

/-- One handler run together with how many times the upstream chat service and
the automation detector were invoked during it. -/
structure HandlerTrace where
  result : HandlerResult
  upstreamCalls : Nat
  detectorCalls : Nat
deriving DecidableEq, Repr

/-- JS `!message.trim()`: the trimmed message is empty exactly when every
character of the message is whitespace. -/
def trimEmpty (s : String) : Bool :=
  s.toList.all Char.isWhitespace

/-- `!message || !message.trim()` on `req.body.message` (`none` embeds a
missing field; `""` and whitespace-only messages are rejected). -/
def messageInvalid : Option String → Bool
  | none => true
  | some s => s == "" || trimEmpty s

/-- `!model || !['auto','gpt','claude','llama'].includes(model)`. -/
def modelInvalid : Option String → Bool
  | none => true
  | some m => m == "" || !(["auto", "gpt", "claude", "llama"].contains m)

/-- The `POST /api/chat` handler of `server/routes.ts`: validate message, then
model, then one awaited call to `openRouterService.chat`; on its success run
`detectAutomations` on the original message and assemble the envelope with a
fresh `randomUUID()` (the `uuid` argument); a thrown service error is caught
into a 500 body carrying `error.message`. -/
def handleChatRoutes (message model : Option String) (uuid : String)
    (randomIndex : Nat) (fr : FetchResult) : HandlerTrace :=
  if messageInvalid message then
    { result := .clientError "Message is required", upstreamCalls := 0, detectorCalls := 0 }
  else if modelInvalid model then
    { result := .clientError "Valid model selection is required"
      upstreamCalls := 0, detectorCalls := 0 }
  else
    match openRouterChat (message.getD "") (model.getD "") randomIndex fr with
    | .error e =>
        { result := .serverError e, upstreamCalls := 1, detectorCalls := 0 }
    | .ok r =>
        { result := .ok { id := uuid, content := r.content, model := r.modelUsed
                          automations := detectAutomations (message.getD "") }
          upstreamCalls := 1, detectorCalls := 1 }

/-- The `POST /api/chat` handler of the Vercel variant server: only the message
is validated; the model is defaulted with `model || 'auto'` and forwarded
unchecked to `aiService.chat` (which never throws); automations are computed
inline by the same keyword code; the envelope id is `Date.now().toString()`
(the `now` argument). -/
def handleChatSafe (message model : Option String) (isAvailable fetchAvailable : Bool)
    (fr : FetchResult) (now : Nat) : HandlerTrace :=
  if messageInvalid message then
    { result := .clientError "Message is required", upstreamCalls := 0, detectorCalls := 0 }
  else
    let m := message.getD ""
    let mdl := jsOrElse model "auto"
    let r := safeChat isAvailable fetchAvailable m mdl fr
    { result := .ok { id := toString now, content := r.content, model := r.modelUsed
                      automations := detectAutomations m }
      upstreamCalls := 1, detectorCalls := 1 }

/-! ## Health endpoints (`GET /api/health`) -/

/-- The body of `server/routes.ts`' health endpoint: `{ status, timestamp }`. -/
structure RoutesHealth where
  status : String
  timestamp : String
deriving DecidableEq, Repr

/-- The `GET /api/health` handler of `server/routes.ts`.  The
`apiKeyPresent` argument embeds the process environment visible to the
handler; the source reads none of it and answers `{ status: 'ok', timestamp }`
only. -/
def healthRoutes (apiKeyPresent : Bool) (timestamp : String) : RoutesHealth :=
  { status := "ok", timestamp := timestamp }

/-- The body of `server/index.ts`' health endpoint. -/
structure IndexHealth where
  status : String
  timestamp : String
  environment : String
  vercel : String
  openRouterAvailable : Bool
deriving DecidableEq, Repr

/-- The `GET /api/health` handler of `server/index.ts`:
`openRouterAvailable: !!process.env.OPENROUTER_API_KEY`,
`environment: process.env.NODE_ENV || 'unknown'`,
`vercel: process.env.VERCEL ? 'yes' : 'no'`. -/
def healthIndex (apiKeyPresent : Bool) (timestamp : String)
    (nodeEnv : Option String) (vercelSet : Bool) : IndexHealth :=
  { status := "ok"
    timestamp := timestamp
    environment := jsOrElse nodeEnv "unknown"
    vercel := if vercelSet then "yes" else "no"
    openRouterAvailable := apiKeyPresent }

/-! ## Auxiliary predicates and projections -/

/-- Whether the upstream fetch outcome is a failure (non-2xx status or thrown
exception), as opposed to a 2xx reply. -/
def fetchFailed : FetchResult → Bool
  | .ok _ => false
  | .httpError _ _ => true
  | .exn _ => true

/-- The human-readable cause attached to a failed upstream outcome. -/
def failureCause : FetchResult → String
  | .ok _ => ""
  | .httpError status body => "OpenRouter API error: " ++ toString status ++ " - " ++ body
  | .exn msg => msg

/-- The failure condition of `SafeOpenRouterService.chat`: credential missing
at construction, `fetch` unavailable, or a failed upstream outcome. -/
def safeFailure (isAvailable fetchAvailable : Bool) (fr : FetchResult) : Bool :=
  !isAvailable || !fetchAvailable || fetchFailed fr

/-- The envelope id of a 200 handler outcome, `none` otherwise. -/
def resultId : HandlerResult → Option String
  | .ok r => some r.id
  | .clientError _ => none
  | .serverError _ => none

/-! ## Helper lemmas -/

theorem jsOrElse_ne_of_default (c : Option String) (d : String) (hd : d ≠ "") :
    jsOrElse c d ≠ "" := by
  cases c with
  | none => simpa [jsOrElse] using hd
  | some s =>
    by_cases hs : s = ""
    · simpa [jsOrElse, hs] using hd
    · simp [jsOrElse, hs]

theorem modelValid_mem (model : Option String) (h : modelInvalid model = false) :
    ∃ m, model = some m ∧ m ∈ ["auto", "gpt", "claude", "llama"] := by
  cases model with
  | none => simp [modelInvalid] at h
  | some m =>
    refine ⟨m, rfl, ?_⟩
    simp [modelInvalid] at h
    simp only [List.mem_cons, List.not_mem_nil, or_false]
    tauto

theorem resolveModel_mem (model : String) (randomIndex : Nat)
    (hm : model ∈ ["auto", "gpt", "claude", "llama"])
    (hidx : randomIndex < 3) :
    resolveModel model randomIndex ∈ ["gpt", "claude", "llama"] := by
  have hidx3 : randomIndex = 0 ∨ randomIndex = 1 ∨ randomIndex = 2 := by omega
  simp only [List.mem_cons, List.not_mem_nil, or_false] at hm
  rcases hm with rfl | rfl | rfl | rfl <;>
    rcases hidx3 with rfl | rfl | rfl <;> decide

theorem lookupMapping_of_mem (s : String) (hs : s ∈ ["gpt", "claude", "llama"]) :
    ∃ prov, lookupMapping s = some prov := by
  simp only [List.mem_cons, List.not_mem_nil, or_false] at hs
  rcases hs with rfl | rfl | rfl <;> exact ⟨_, rfl⟩

theorem mem_concrete_ne_auto (s : String) (hs : s ∈ ["gpt", "claude", "llama"]) :
    s ≠ "auto" := by
  simp only [List.mem_cons, List.not_mem_nil, or_false] at hs
  rcases hs with rfl | rfl | rfl <;> decide

theorem openRouterChat_eval (message model : String) (randomIndex : Nat)
    (fr : FetchResult) (prov : String)
    (hl : lookupMapping (resolveModel model randomIndex) = some prov) :
    openRouterChat message model randomIndex fr =
      match fr with
      | .ok c =>
          .ok { content := jsOrElse c "No response generated"
                modelUsed := resolveModel model randomIndex }
      | .httpError status body =>
          .error ("Failed to get AI response: "
            ++ ("OpenRouter API error: " ++ toString status ++ " - " ++ body))
      | .exn msg =>
          .error ("Failed to get AI response: " ++ msg) := by
  unfold openRouterChat
  rw [hl]

theorem openRouterChat_ok_spec (message model : String) (randomIndex : Nat)
    (fr : FetchResult) (r : ChatResult)
    (hm : model ∈ ["auto", "gpt", "claude", "llama"])
    (hidx : randomIndex < 3)
    (hok : openRouterChat message model randomIndex fr = .ok r) :
    r.modelUsed ∈ ["gpt", "claude", "llama"] ∧ r.modelUsed ≠ "auto" ∧ r.content ≠ "" := by
  have hplaceholder : ("No response generated" : String) ≠ "" := by decide
  have hmem := resolveModel_mem model randomIndex hm hidx
  obtain ⟨prov, hl⟩ := lookupMapping_of_mem _ hmem
  rw [openRouterChat_eval message model randomIndex fr prov hl] at hok
  cases fr with
  | ok c =>
      cases hok
      exact ⟨hmem, mem_concrete_ne_auto _ hmem,
        jsOrElse_ne_of_default c _ hplaceholder⟩
  | httpError status body => exact Except.noConfusion hok
  | exn msg => exact Except.noConfusion hok

theorem openRouterChat_failure (message model : String) (randomIndex : Nat)
    (fr : FetchResult)
    (hm : model ∈ ["auto", "gpt", "claude", "llama"])
    (hidx : randomIndex < 3)
    (hf : fetchFailed fr = true) :
    openRouterChat message model randomIndex fr
      = .error ("Failed to get AI response: " ++ failureCause fr) := by
  have hmem := resolveModel_mem model randomIndex hm hidx
  obtain ⟨prov, hl⟩ := lookupMapping_of_mem _ hmem
  rw [openRouterChat_eval message model randomIndex fr prov hl]
  cases fr with
  | ok c => simp [fetchFailed] at hf
  | httpError status body => rfl
  | exn msg => rfl

theorem chatRoutes_id_eq_uuid (message model : Option String) (uuid : String)
    (randomIndex : Nat) (fr : FetchResult) (resp : ChatResponse)
    (hok : (handleChatRoutes message model uuid randomIndex fr).result = .ok resp) :
    resp.id = uuid := by
  unfold handleChatRoutes at hok
  split at hok
  · simp at hok
  · split at hok
    · simp at hok
    · split at hok
      · simp at hok
      · simp at hok
        subst hok
        rfl

/-! ## Claim theorems -/

/-- C1 (counterexample): in the Vercel variant pipeline a valid request with
`model = "auto"` whose upstream call succeeds is answered with an envelope
whose `model` field is the literal `"auto"` sentinel — `SafeOpenRouterService`
returns `modelUsed: model` unresolved, so the claimed never-auto guarantee is
false for this cited implementation. -/
theorem chatSafe_auto_leaks_sentinel :
    (handleChatSafe (some "hi") (some "auto") true true (.ok (some "Hello")) 42).result
      = .ok { id := "42", content := "Hello", model := "auto", automations := [] }
    ∧ "auto" ∉ ["gpt", "claude", "llama"] := by
  exact ⟨by decide, by decide⟩

/-- C1 (amended): in the canonical pipeline (`server/routes.ts` with
`OpenRouterService`), every successful response envelope carries one of the
three concrete logical identifiers — never `"auto"` — and a non-empty content
(with `"No response generated"` substituted when the upstream text is absent
or empty). -/
theorem chatRoutes_model_resolved (message model : Option String) (uuid : String)
    (randomIndex : Nat) (fr : FetchResult) (resp : ChatResponse)
    (hidx : randomIndex < 3)
    (hok : (handleChatRoutes message model uuid randomIndex fr).result = .ok resp) :
    resp.model ∈ ["gpt", "claude", "llama"] ∧ resp.model ≠ "auto" ∧ resp.content ≠ "" := by
  unfold handleChatRoutes at hok
  split at hok
  · simp at hok
  · split at hok
    · simp at hok
    · next hmv =>
      rw [Bool.not_eq_true] at hmv
      obtain ⟨m, rfl, hmem⟩ := modelValid_mem model hmv
      split at hok
      · simp at hok
      · next r heq =>
        simp at hok
        subst hok
        simpa using openRouterChat_ok_spec _ _ _ _ _ hmem hidx heq

/-- C1 (witness for the amended theorem): a concrete `auto` request whose
upstream reply has no completion text resolves to the `gpt` model with the
placeholder content. -/
theorem chatRoutes_model_resolved_witness :
    ({ id := "u", content := "No response generated", model := "gpt",
       automations := [] } : ChatResponse).model ∈ ["gpt", "claude", "llama"] ∧
    ({ id := "u", content := "No response generated", model := "gpt",
       automations := [] } : ChatResponse).model ≠ "auto" ∧
    ({ id := "u", content := "No response generated", model := "gpt",
       automations := [] } : ChatResponse).content ≠ "" :=
  chatRoutes_model_resolved (some "hi") (some "auto") "u" 0 (.ok none) _
    (by decide) (by decide)

/-- C2: the automation detector is the pure function that, case-insensitively
and independently, emits exactly one fixed action per keyword of
`email, task, slack` present in the message, always in that order; in
particular `detect "" = []`, a single-keyword message yields exactly its one
action, an all-three (even upper-case) message yields the three actions in
order, and `"EMAIL"` matches case-insensitively. -/
theorem automationDetector_correct :
    (∀ msg, detectAutomations msg = detectAutomationsSpec msg)
    ∧ detectAutomations "" = []
    ∧ detectAutomations "please send an email" = [emailAction]
    ∧ detectAutomations "EMAIL AND TASK AND SLACK"
        = [emailAction, taskAction, slackAction]
    ∧ detectAutomations "EMAIL" = [emailAction] :=
  ⟨detect_eq_spec, by decide, by decide, by decide, by decide⟩

/-- C3 (counterexample): the Vercel variant handler does not validate the
model: the unrecognized model `"gpt5"` is forwarded and the upstream chat
service is invoked once (not zero times), with no client validation error. -/
theorem chatSafe_invalid_model_reaches_upstream :
    modelInvalid (some "gpt5") = true
    ∧ (handleChatSafe (some "hello") (some "gpt5") true true (.ok (some "Hi")) 0).upstreamCalls = 1
    ∧ (handleChatSafe (some "hello") (some "gpt5") true true (.ok (some "Hi")) 0).result
        = .ok { id := "0", content := "Hi", model := "gpt5", automations := [] } := by
  exact ⟨by decide, by decide, by decide⟩

/-- C3 (amended): in the canonical handler (`server/routes.ts`), an empty or
whitespace-only message, or a missing/unrecognized model, is rejected with a
client validation error and the upstream service is invoked zero times; the
variant handler guarantees this only for the message check. -/
theorem validation_precedes_upstream (message model : Option String) (uuid : String)
    (randomIndex : Nat) (fr : FetchResult)
    (h : messageInvalid message = true ∨ modelInvalid model = true) :
    (∃ e, (handleChatRoutes message model uuid randomIndex fr).result = .clientError e)
    ∧ (handleChatRoutes message model uuid randomIndex fr).upstreamCalls = 0 := by
  by_cases hmi : messageInvalid message = true
  · exact ⟨⟨"Message is required", by simp [handleChatRoutes, hmi]⟩,
      by simp [handleChatRoutes, hmi]⟩
  · rcases h with h | h
    · exact absurd h hmi
    · exact ⟨⟨"Valid model selection is required", by simp [handleChatRoutes, hmi, h]⟩,
        by simp [handleChatRoutes, hmi, h]⟩

/-- C3 (witness for the amended theorem): a whitespace-only message is
rejected without any upstream call. -/
theorem validation_precedes_upstream_witness :
    (∃ e, (handleChatRoutes (some "   ") (some "gpt") "u" 0 (.ok none)).result
        = .clientError e)
    ∧ (handleChatRoutes (some "   ") (some "gpt") "u" 0 (.ok none)).upstreamCalls = 0 :=
  validation_precedes_upstream (some "   ") (some "gpt") "u" 0 (.ok none)
    (Or.inl (by decide))

/-- C4 (counterexample): in the Vercel variant pipeline, a valid request whose
upstream call fails with a non-2xx status is answered with a *success*
envelope (HTTP 200, fallback content) rather than a server-error outcome, and
the automation detector *is* invoked (here producing the email action). -/
theorem chatSafe_failure_not_server_error :
    fetchFailed (.httpError 500 "") = true
    ∧ (handleChatSafe (some "send email") (some "gpt") true true (.httpError 500 "") 7).result
        = .ok { id := "7"
                content := "AI service error: API error: 500. Using fallback response."
                model := "fallback"
                automations := [emailAction] }
    ∧ (handleChatSafe (some "send email") (some "gpt") true true (.httpError 500 "") 7).detectorCalls = 1 := by
  exact ⟨rfl, rfl, rfl⟩

/-- C4 (amended): in the canonical pipeline, a valid request whose upstream
call fails (non-2xx status or transport/parse exception) resolves to a single
server-error outcome carrying the underlying cause string, with exactly one
upstream attempt (no retry) and the automation detector not invoked; the
variant pipeline instead returns a 200 fallback envelope and runs the
detector. -/
theorem upstream_failure_single_error (message model : Option String) (uuid : String)
    (randomIndex : Nat) (fr : FetchResult)
    (hmi : messageInvalid message = false) (hmv : modelInvalid model = false)
    (hidx : randomIndex < 3) (hf : fetchFailed fr = true) :
    (handleChatRoutes message model uuid randomIndex fr).result
      = .serverError ("Failed to get AI response: " ++ failureCause fr)
    ∧ (handleChatRoutes message model uuid randomIndex fr).upstreamCalls = 1
    ∧ (handleChatRoutes message model uuid randomIndex fr).detectorCalls = 0 := by
  obtain ⟨m, rfl, hmem⟩ := modelValid_mem model hmv
  have herr := openRouterChat_failure (message.getD "") m randomIndex fr hmem hidx hf
  simp [handleChatRoutes, hmi, hmv, herr]

/-- C4 (witness for the amended theorem): a concrete valid request with a 500
upstream status yields exactly the server-error outcome, one upstream call,
and no detector invocation. -/
theorem upstream_failure_single_error_witness :
    (handleChatRoutes (some "hi") (some "claude") "u" 1 (.httpError 500 "boom")).result
      = .serverError ("Failed to get AI response: " ++ failureCause (.httpError 500 "boom"))
    ∧ (handleChatRoutes (some "hi") (some "claude") "u" 1 (.httpError 500 "boom")).upstreamCalls = 1
    ∧ (handleChatRoutes (some "hi") (some "claude") "u" 1 (.httpError 500 "boom")).detectorCalls = 0 :=
  upstream_failure_single_error (some "hi") (some "claude") "u" 1
    (.httpError 500 "boom") (by decide) (by decide) (by decide) (by decide)

/-- C5 (counterexample): the Safe variant router resolves `"auto"`
deterministically — with no random draw — to the `gpt` provider string,
never to the claude or llama providers, and even reports `modelUsed = "auto"`
on success; so the claimed uniformly-random choice among the three logical
models is false for this cited implementation. -/
theorem safeResolve_auto_deterministic :
    safeResolveProvider "auto" = "openai/gpt-4o"
    ∧ safeResolveProvider "auto" ≠ "anthropic/claude-3.5-sonnet"
    ∧ safeResolveProvider "auto" ≠ "meta-llama/llama-3.1-70b-instruct"
    ∧ (safeChat true true "hi" "auto" (.ok (some "ok"))).modelUsed = "auto" := by
  exact ⟨by decide, by decide, by decide, by decide⟩

/-- C5 (amended): in `OpenRouterService.chat`, an `"auto"` request resolves
through the uniformly drawn index `randomIndex < 3`: each index yields the
corresponding element of `AVAILABLE_MODELS` (so each of the three concrete
models is reachable), distinct indices yield distinct models (a uniform index
gives a uniform model, independently per call), and a concrete (non-auto)
model always resolves to itself, with no dependence on the random draw. -/
theorem resolveModel_uniform_deterministic (i j : Nat) (m : String)
    (hi : i < 3) (hj : j < 3) :
    (resolveModel "auto" i = AVAILABLE_MODELS.getD i ""
      ∧ resolveModel "auto" i ∈ ["gpt", "claude", "llama"])
    ∧ (resolveModel "auto" i = resolveModel "auto" j → i = j)
    ∧ (m ≠ "auto" → resolveModel m i = m) := by
  have hi3 : i = 0 ∨ i = 1 ∨ i = 2 := by omega
  have hj3 : j = 0 ∨ j = 1 ∨ j = 2 := by omega
  refine ⟨⟨rfl, ?_⟩, ?_, ?_⟩
  · rcases hi3 with rfl | rfl | rfl <;> decide
  · rcases hi3 with rfl | rfl | rfl <;> rcases hj3 with rfl | rfl | rfl <;>
      first
        | (intro _; rfl)
        | (intro h; exact absurd h (by decide))
  · intro hm
    simp [resolveModel, hm]

/-- C5 (witness for the amended theorem): index 1 resolves `"auto"` to a
concrete supported model, and `"gpt"` resolves to itself. -/
theorem resolveModel_uniform_deterministic_witness :
    (resolveModel "auto" 1 = AVAILABLE_MODELS.getD 1 ""
      ∧ resolveModel "auto" 1 ∈ ["gpt", "claude", "llama"])
    ∧ (resolveModel "auto" 1 = resolveModel "auto" 2 → 1 = 2)
    ∧ ("gpt" ≠ "auto" → resolveModel "gpt" 1 = "gpt") :=
  resolveModel_uniform_deterministic 1 2 "gpt" (by decide) (by decide)

/-- C6 (counterexample): in the Safe variant (and identically in
`SimpleOpenRouterService`), the logical identifier `"gpt5"` has no table
entry, yet the resolution silently substitutes the default `'auto'` provider
`openai/gpt-4o` and the chat call completes normally — no configuration error
is raised. -/
theorem safeChat_unmapped_silent_default :
    lookupSafe "gpt5" = none
    ∧ safeResolveProvider "gpt5" = "openai/gpt-4o"
    ∧ safeChat true true "hi" "gpt5" (.ok (some "Hello"))
        = { content := "Hello", modelUsed := "gpt5" } := by
  exact ⟨by decide, by decide, by decide⟩

/-- C6 (amended): in the canonical `OpenRouterService.chat`, a resolved logical
identifier with no `MODEL_MAPPINGS` entry fails loudly with the internal
`Unsupported model` error (wrapped by the service's own failure prefix, and
distinct from the handler's client validation errors) for every upstream
outcome, rather than substituting a default; the Safe/Simple variants instead
silently default to `openai/gpt-4o`. -/
theorem router_unmapped_fails_loudly (message model : String) (randomIndex : Nat)
    (fr : FetchResult)
    (h : lookupMapping (resolveModel model randomIndex) = none) :
    openRouterChat message model randomIndex fr
      = .error ("Failed to get AI response: "
          ++ ("Unsupported model: " ++ resolveModel model randomIndex)) := by
  unfold openRouterChat
  rw [h]

/-- C6 (witness for the amended theorem): `"gpt5"` is rejected loudly even on
an otherwise successful upstream outcome. -/
theorem router_unmapped_fails_loudly_witness :
    openRouterChat "hi" "gpt5" 0 (.ok (some "x"))
      = .error ("Failed to get AI response: "
          ++ ("Unsupported model: " ++ resolveModel "gpt5" 0)) :=
  router_unmapped_fails_loudly "hi" "gpt5" 0 (.ok (some "x")) (by decide)

/-- C7: when the upstream credential is absent at construction time,
`registerRoutes` holds the degraded stand-in, and that stand-in answers every
`chat(message, model)` call — through the same `routerChat` operation the
operational service uses — with the fixed service-unavailable content and the
sentinel `modelUsed = "fallback"`, so every request still completes with an
ok outcome instead of crashing. -/
theorem degraded_standin_serves_requests :
    makeRouter false = .degraded constructorKeyError
    ∧ ∀ (message model : String) (randomIndex : Nat) (fr : FetchResult),
        routerChat (makeRouter false) message model randomIndex fr
          = .ok { content := "Service temporarily unavailable. Please check your API configuration. Error: "
                    ++ constructorKeyError
                  modelUsed := "fallback" } :=
  ⟨by decide, fun _ _ _ _ => rfl⟩

/-- C8 (counterexample): the Vercel variant handler derives the envelope id
from `Date.now()`, so two distinct successful requests served in the same
millisecond (here two different messages at timestamp 42) receive the *same*
id `"42"` — the claimed pairwise distinctness is false for this cited
implementation. -/
theorem chatSafe_id_collision :
    (some "hello" : Option String) ≠ some "world"
    ∧ resultId (handleChatSafe (some "hello") (some "gpt") true true
        (.ok (some "A")) 42).result = some "42"
    ∧ resultId (handleChatSafe (some "world") (some "gpt") true true
        (.ok (some "B")) 42).result = some "42" := by
  exact ⟨by decide, by decide, by decide⟩

/-- C8 (amended): in the canonical handler, every successful envelope's id is
exactly the freshly generated `randomUUID()` of that request, so any two
successful requests whose UUID draws differ receive distinct ids; the variant
handler instead uses the request timestamp, which can repeat within a
millisecond. -/
theorem envelope_id_fresh (m1 mo1 : Option String) (u1 : String) (i1 : Nat)
    (f1 : FetchResult) (m2 mo2 : Option String) (u2 : String) (i2 : Nat)
    (f2 : FetchResult) (r1 r2 : ChatResponse)
    (hu : u1 ≠ u2)
    (h1 : (handleChatRoutes m1 mo1 u1 i1 f1).result = .ok r1)
    (h2 : (handleChatRoutes m2 mo2 u2 i2 f2).result = .ok r2) :
    r1.id ≠ r2.id := by
  rw [chatRoutes_id_eq_uuid m1 mo1 u1 i1 f1 r1 h1,
    chatRoutes_id_eq_uuid m2 mo2 u2 i2 f2 r2 h2]
  exact hu

/-- C8 (witness for the amended theorem): two concrete successful requests
with distinct UUIDs receive distinct envelope ids. -/
theorem envelope_id_fresh_witness :
    ({ id := "uuid-a", content := "Hi", model := "gpt", automations := [] }
        : ChatResponse).id
      ≠ ({ id := "uuid-b", content := "Hi", model := "gpt", automations := [] }
        : ChatResponse).id :=
  envelope_id_fresh (some "hello") (some "gpt") "uuid-a" 0 (.ok (some "Hi"))
    (some "world") (some "gpt") "uuid-b" 0 (.ok (some "Hi")) _ _
    (by decide) (by decide) (by decide)

/-- C9 (counterexample): the canonical `GET /api/health` handler of
`server/routes.ts` answers `{ status: 'ok', timestamp }` only: its response is
identical whether or not the backend credential is configured, so it carries
no indication of the backend configuration — the claim fails for this cited
implementation. -/
theorem healthRoutes_no_config_indication :
    healthRoutes true "2025-01-01T00:00:00.000Z"
      = healthRoutes false "2025-01-01T00:00:00.000Z"
    ∧ healthRoutes true "2025-01-01T00:00:00.000Z"
      = { status := "ok", timestamp := "2025-01-01T00:00:00.000Z" } := by
  exact ⟨by decide, by decide⟩

/-- C9 (amended): the `server/index.ts` health endpoint returns the liveness
indicator `status = "ok"` together with `openRouterAvailable` equal to exactly
the presence of the backend credential, for every environment — and, being a
pure function of its inputs, performs no state change or upstream call; the
canonical `routes.ts` health endpoint reports liveness and timestamp only. -/
theorem healthIndex_reports_liveness_config (apiKeyPresent : Bool)
    (timestamp : String) (nodeEnv : Option String) (vercelSet : Bool) :
    (healthIndex apiKeyPresent timestamp nodeEnv vercelSet).status = "ok"
    ∧ (healthIndex apiKeyPresent timestamp nodeEnv vercelSet).openRouterAvailable
        = apiKeyPresent :=
  ⟨rfl, rfl⟩

/-- C10: `SafeOpenRouterService.chat` is total over its error cases: for every
message, model, credential state, fetch availability, and upstream outcome it
resolves to a `{ content, modelUsed }` record whose content is non-empty, and
every failure (credential missing, fetch unavailable, non-OK status,
network/parse exception) yields the sentinel `modelUsed = "fallback"`. -/
theorem safeChat_total (isAvailable fetchAvailable : Bool) (message model : String)
    (fr : FetchResult) :
    (safeChat isAvailable fetchAvailable message model fr).content ≠ ""
    ∧ (safeFailure isAvailable fetchAvailable fr = true →
        (safeChat isAvailable fetchAvailable message model fr).modelUsed
          = "fallback") := by
  have hplaceholder : ("No response generated" : String) ≠ "" := by decide
  cases isAvailable with
  | false =>
      refine ⟨?_, fun _ => rfl⟩
      show ("AI service is currently unavailable. Please check your configuration." : String) ≠ ""
      decide
  | true =>
    cases fetchAvailable with
    | false =>
        refine ⟨?_, fun _ => rfl⟩
        show ("Fetch API not available in this environment." : String) ≠ ""
        decide
    | true =>
      cases fr with
      | ok c =>
          refine ⟨?_, fun h => ?_⟩
          · show jsOrElse c "No response generated" ≠ ""
            exact jsOrElse_ne_of_default c _ hplaceholder
          · simp [safeFailure, fetchFailed] at h
      | httpError status body =>
          refine ⟨?_, fun _ => rfl⟩
          show ("AI service error: API error: " ++ toString status
            ++ ". Using fallback response.") ≠ ""
          intro h
          have hd := congrArg String.data h
          simp at hd
      | exn msg =>
          refine ⟨?_, fun _ => rfl⟩
          show ("AI service error: " ++ msg ++ ". Using fallback response.") ≠ ""
          intro h
          have hd := congrArg String.data h
          simp at hd

/-- C10 (witness): with the credential absent, the concrete call resolves to a
non-empty fallback content with `modelUsed = "fallback"`. -/
theorem safeChat_total_witness :
    (safeChat false true "m" "gpt" (.ok none)).content ≠ ""
    ∧ (safeChat false true "m" "gpt" (.ok none)).modelUsed = "fallback" :=
  ⟨(safeChat_total false true "m" "gpt" (.ok none)).1,
   (safeChat_total false true "m" "gpt" (.ok none)).2 (by decide)⟩

end AwakePro
